import Mathlib

/-!
Verification of the sandboxed algorithm-execution and analytics platform
(`algorithm-dashboard/backend`): a shallow embedding of the security
validator, the Docker executor's result paths, the performance-analytics
regression detector and complexity fit, and the test framework's suite
runner, together with proofs of the specified properties.

Python strings are modelled as `List Char`; Python floats as `ℚ`
(the arithmetic the claims depend on is exact comparisons, sums and
divisions, which the rational embedding reproduces); Python `None` as
`Option`.
-/

/-- Coerce a Lean string literal to the `List Char` model of Python strings. -/
def str (s : String) : List Char := s.data

/-- Python's substring test, `needle in hay`. -/
def pyContains (needle : List Char) : List Char → Bool
  | [] => needle.isEmpty
  | c :: rest => needle.isPrefixOf (c :: rest) || pyContains needle rest

/-- Generic foldl invariant-preservation lemma, used for the per-check
invariants of the security scanner. -/
theorem foldl_inv {α β : Type} (P : α → Prop) (f : α → β → α)
    (h : ∀ a b, P a → P (f a b)) :
    ∀ (l : List β) (a : α), P a → P (l.foldl f a)
  | [], _, pa => pa
  | b :: l, a, pa => foldl_inv P f h l (f a b) (h a b pa)

/-- Generic foldl lemma: a fold whose step fires on no element of the list
is the identity. -/
theorem foldl_id {α β : Type} (f : α → β → α) (l : List β)
    (h : ∀ a b, b ∈ l → f a b = a) : ∀ a : α, l.foldl f a = a := by
  induction l with
  | nil => intro a; rfl
  | cons b t ih =>
      intro a
      have hb : f a b = a := h a b (List.mem_cons_self b t)
      simp only [List.foldl_cons, hb]
      exact ih (fun a c hc => h a c (List.mem_cons_of_mem b hc)) a

namespace Sec

/-! ## Security Validator (`backend/security/security_manager.py`) -/

/-- Risk level of a security report (`LOW`/`MEDIUM`/`HIGH` strings in the
source). -/
inductive RiskLevel where
  | LOW
  | MEDIUM
  | HIGH
deriving DecidableEq, Repr

/-- Numeric rank of a risk level, for the escalation order LOW < MEDIUM < HIGH. -/
def RiskLevel.rank : RiskLevel → ℕ
  | .LOW => 0
  | .MEDIUM => 1
  | .HIGH => 2

/-- `a` is at most `b` in the LOW→MEDIUM→HIGH escalation order. -/
def riskLe (a b : RiskLevel) : Prop := a.rank ≤ b.rank

instance (a b : RiskLevel) : Decidable (riskLe a b) := by
  unfold riskLe; infer_instance

theorem riskLe_refl (a : RiskLevel) : riskLe a a := Nat.le_refl _

theorem riskLe_trans {a b c : RiskLevel} (h1 : riskLe a b) (h2 : riskLe b c) :
    riskLe a c := Nat.le_trans h1 h2

/-- Default allowed imports, set in `SecurityManager.__init__` when the
config leaves them unspecified. -/
def default_allowed_imports : List (List Char) :=
  [str "math", str "json", str "time", str "random", str "itertools",
   str "functools", str "collections", str "heapq", str "bisect",
   str "typing", str "dataclasses"]

/-- Default blocked function names, set in `SecurityManager.__init__` when
the config leaves them unspecified. -/
def default_blocked_functions : List (List Char) :=
  [str "eval", str "exec", str "compile", str "__import__", str "open",
   str "file", str "input", str "raw_input", str "exit", str "quit",
   str "reload"]

/-- `SecurityConfig` with the `__init__` defaults already resolved. -/
structure SecurityConfig where
  max_execution_time : ℤ := 30
  max_memory_mb : ℤ := 128
  max_cpu_percent : ℚ := 50
  max_file_size_mb : ℤ := 10
  max_open_files : ℤ := 64
  allowed_imports : List (List Char) := default_allowed_imports
  blocked_functions : List (List Char) := default_blocked_functions
  network_access : Bool := false
  file_system_access : Bool := false

/-- The default security configuration. -/
def default_config : SecurityConfig := {}

/-- The `security_report` dict built by `validate_code_security`. -/
structure SecurityReport where
  safe : Bool
  warnings : List (List Char)
  blocked_items : List (List Char)
  risk_level : RiskLevel
deriving DecidableEq, Repr

/-- The initial report: `safe=True`, no findings, risk `LOW`. -/
def report0 : SecurityReport :=
  { safe := true, warnings := [], blocked_items := [], risk_level := .LOW }

/-- One step of the blocked-function check: `if func in code` then
`safe=False`, append a blocked item, set risk `HIGH`. -/
def blockedStep (code : List Char) (r : SecurityReport) (func : List Char) :
    SecurityReport :=
  if pyContains func code then
    { r with safe := false,
             blocked_items := r.blocked_items ++ [str "Blocked function: " ++ func],
             risk_level := .HIGH }
  else r

/-- The suspicious-pattern literals scanned by `validate_code_security`. -/
def suspicious_patterns : List (List Char) :=
  [str "subprocess", str "os.system", str "os.popen", str "os.exec",
   str "import os", str "import sys", str "import subprocess",
   str "__builtins__", str "__globals__", str "__locals__",
   str "globals()", str "locals()", str "vars()",
   str "setattr", str "getattr", str "hasattr", str "delattr"]

/-- One step of the suspicious-pattern check: append a warning and escalate
`LOW` to `MEDIUM` (risk already `MEDIUM`/`HIGH` is left unchanged). -/
def suspiciousStep (code : List Char) (r : SecurityReport) (pat : List Char) :
    SecurityReport :=
  if pyContains pat code then
    { r with warnings := r.warnings ++ [str "Suspicious pattern: " ++ pat],
             risk_level := if r.risk_level = .LOW then .MEDIUM else r.risk_level }
  else r

/-- Python whitespace, as stripped by `str.strip()`. -/
def isPySpace (c : Char) : Bool :=
  c = ' ' || c = '\t' || c = '\n' || c = '\r' || c = '\x0b' || c = '\x0c'

/-- Python `str.strip()`. -/
def pyStrip (l : List Char) : List Char :=
  ((l.dropWhile isPySpace).reverse.dropWhile isPySpace).reverse

/-- Python `str.split()` with no argument: split on whitespace runs,
dropping empty chunks. -/
def pySplitWs (l : List Char) : List (List Char) :=
  (l.splitOnP isPySpace).filter (fun w => w ≠ [])

/-- `SecurityManager._extract_module_name`: the first dot-component of the
first word after `import ` or `from `; `None` when neither prefix matches
or an exception (no word) occurs. -/
def extract_module_name (line : List Char) : Option (List Char) :=
  if (str "import ").isPrefixOf line then
    match pySplitWs (line.drop 7) with
    | [] => none
    | w :: _ => some (w.takeWhile (fun c => c ≠ '.'))
  else if (str "from ").isPrefixOf line then
    match pySplitWs (line.drop 5) with
    | [] => none
    | w :: _ => some (w.takeWhile (fun c => c ≠ '.'))
  else none

/-- The stripped lines of `code` starting with `import` or `from`
(`validate_code_security`'s `import_lines` comprehension). -/
def import_lines (code : List Char) : List (List Char) :=
  ((code.splitOn '\n').map pyStrip).filter
    (fun l => (str "import").isPrefixOf l || (str "from").isPrefixOf l)

/-- One step of the import check: a nonempty module name outside the
allowlist adds a warning and escalates `LOW` to `MEDIUM`.  (Python's
`if module_name and module_name not in ...` skips the empty string.) -/
def importStep (cfg : SecurityConfig) (r : SecurityReport) (line : List Char) :
    SecurityReport :=
  match extract_module_name line with
  | none => r
  | some m =>
      if m ≠ [] ∧ m ∉ cfg.allowed_imports then
        { r with warnings := r.warnings ++ [str "Unauthorized import: " ++ m],
                 risk_level := if r.risk_level = .LOW then .MEDIUM else r.risk_level }
      else r

/-- The file-operation literals scanned by `validate_code_security`. -/
def file_operations : List (List Char) :=
  [str "open(", str "file(", str "with open", str "read(", str "write("]

/-- One step of the file-operation check: blocking only when
`file_system_access` is disabled. -/
def fileOpStep (cfg : SecurityConfig) (code : List Char) (r : SecurityReport)
    (op : List Char) : SecurityReport :=
  if pyContains op code then
    if cfg.file_system_access then r
    else
      { r with safe := false,
               blocked_items := r.blocked_items ++ [str "File operation: " ++ op],
               risk_level := .HIGH }
  else r

/-- Report state after the blocked-function scan. -/
def check_blocked (cfg : SecurityConfig) (code : List Char) : SecurityReport :=
  cfg.blocked_functions.foldl (blockedStep code) report0

/-- Report state after the suspicious-pattern scan. -/
def check_suspicious (cfg : SecurityConfig) (code : List Char) : SecurityReport :=
  suspicious_patterns.foldl (suspiciousStep code) (check_blocked cfg code)

/-- Report state after the import-allowlist scan. -/
def check_imports (cfg : SecurityConfig) (code : List Char) : SecurityReport :=
  (import_lines code).foldl (importStep cfg) (check_suspicious cfg code)

/-- `SecurityManager.validate_code_security`: the four scans in source
order (blocked functions, suspicious patterns, imports, file operations). -/
def validate_code_security (cfg : SecurityConfig) (code : List Char) :
    SecurityReport :=
  file_operations.foldl (fileOpStep cfg code) (check_imports cfg code)

/-- An import line passes the allowlist check: its module name is absent,
empty, or allowlisted.  Exactly the negation of `importStep`'s firing
condition, as a decidable Bool. -/
def importOk (cfg : SecurityConfig) (line : List Char) : Bool :=
  match extract_module_name line with
  | none => true
  | some m => decide (m = [] ∨ m ∈ cfg.allowed_imports)

/-- The invariant `validate_code_security` maintains across its four
scans: `safe` tracks emptiness of the blocked list, a nonempty blocked
list forces risk `HIGH`, and any warning forces risk at least `MEDIUM`. -/
def ReportInv (r : SecurityReport) : Prop :=
  (r.safe = true ↔ r.blocked_items = []) ∧
  (r.blocked_items ≠ [] → r.risk_level = .HIGH) ∧
  (r.warnings ≠ [] → riskLe .MEDIUM r.risk_level)

end Sec

namespace Ana

/-! ## Analytics Engine (`backend/analytics/performance_analytics.py`) -/

/-- A `PerformancePoint` measurement. -/
structure PerformancePoint where
  timestamp : ℚ
  input_size : ℤ
  execution_time : ℚ
  memory_usage : ℚ
  cpu_usage : ℚ
  algorithm_name : List Char
  session_id : List Char
deriving DecidableEq, Repr

/-- `np.mean` over a list of rationals. -/
def qmean (l : List ℚ) : ℚ := l.sum / l.length

/-- `PerformanceAnalytics._detect_performance_regression`: below 5 points
return `False`; otherwise compare the mean execution time of the last 3
points (`points[-3:]`) against `points[-6:-3]` (or `points[:-3]` when the
history has exactly 5 points), flagging when the recent mean exceeds 1.2
times the older mean. -/
def detect_performance_regression (points : List PerformancePoint) : Bool :=
  if points.length < 5 then false
  else
    let recent := points.drop (points.length - 3)
    let older :=
      if 6 ≤ points.length then (points.drop (points.length - 6)).take 3
      else points.take (points.length - 3)
    let recent_avg := qmean (recent.map (fun p => p.execution_time))
    let older_avg := qmean (older.map (fun p => p.execution_time))
    decide (recent_avg > older_avg * (6 / 5 : ℚ))

/-- Modelled from the claim wording only (for comparison with the code):
compare the mean of the most recent 3 points against the mean of the
preceding 3 points — or fewer when the history is short — and flag a
regression exactly when the recent mean exceeds the prior mean by more
than 20%.  Undefined (false) when there is no preceding point. -/
def regression_spec (points : List PerformancePoint) : Bool :=
  if points.length < 4 then false
  else
    let recent := points.drop (points.length - 3)
    let preceding := (points.take (points.length - 3)).drop (points.length - 6)
    decide (qmean (recent.map (fun p => p.execution_time)) >
      qmean (preceding.map (fun p => p.execution_time)) * (6 / 5 : ℚ))

/-- The candidate growth-function labels, least to most complex, in the
insertion order of `ComplexityAnalyzer.complexity_functions`. -/
def complexity_names : List (List Char) :=
  [str "O(1)", str "O(log n)", str "O(n)", str "O(n log n)",
   str "O(n²)", str "O(n³)", str "O(2^n)"]

/-- What one successful candidate fit (the `try` body of
`analyze_time_complexity`) yields: the R² of the `scipy.stats.linregress`
of the metric against the candidate's growth values, the `[slope,
intercept]` coefficients and the residuals.  The floating-point regression
itself is abstracted as an oracle (`fit` below): `none` models the
`continue` paths — NaN/infinite growth values or an exception during the
fit; R² is a square, hence nonnegative whenever present. -/
structure FitCandidate where
  r_squared : ℚ
  coefficients : List ℚ
  residuals : List ℚ
deriving DecidableEq, Repr

/-- The `ComplexityFit` dataclass. -/
structure ComplexityFit where
  best_fit : List Char
  r_squared : ℚ
  coefficients : List ℚ
  residuals : List ℚ
  confidence_interval : List ((List Char) × ℚ)
deriving DecidableEq, Repr

/-- `max` over the numpy array of input sizes (nonempty in every use). -/
def pymax : List ℤ → ℤ
  | [] => 0
  | x :: xs => xs.foldl max x

/-- `ComplexityAnalyzer._calculate_confidence_interval`; `np.sqrt n` is
passed in as `sqrtn` (irrational for most `n`, so not representable
exactly in the rational embedding). -/
def calculate_confidence_interval (r_squared : ℚ) (n : ℕ) (sqrtn : ℚ) :
    List ((List Char) × ℚ) :=
  if n < 3 then [(str "lower", 0), (str "upper", 1)]
  else
    let margin := (1 - r_squared) / sqrtn
    [(str "lower", max 0 (r_squared - margin)),
     (str "upper", min 1 (r_squared + margin))]

/-- The running best-candidate state of `analyze_time_complexity`'s loop. -/
structure BestAcc where
  best_fit : Option (List Char)
  best_r_squared : ℚ
  best_coeffs : List ℚ
  best_residuals : List ℚ
deriving DecidableEq, Repr

/-- One iteration of the candidate loop: skip `O(2^n)` above the overflow
threshold, skip failed fits, otherwise keep the candidate when its R²
strictly exceeds the best so far (so the first maximal candidate wins). -/
def fitStep (fit : List Char → Option FitCandidate) (input_sizes : List ℤ)
    (acc : BestAcc) (name : List Char) : BestAcc :=
  if name = str "O(2^n)" ∧ pymax input_sizes > 20 then acc
  else
    match fit name with
    | none => acc
    | some fc =>
        if fc.r_squared > acc.best_r_squared then
          { best_fit := some name, best_r_squared := fc.r_squared,
            best_coeffs := fc.coefficients, best_residuals := fc.residuals }
        else acc

/-- `ComplexityAnalyzer.analyze_time_complexity`: default fit below 3
observations, else the first-maximal-R² candidate over the enumeration. -/
def analyze_time_complexity (fit : List Char → Option FitCandidate)
    (sqrtn : ℚ) (input_sizes : List ℤ) : ComplexityFit :=
  if input_sizes.length < 3 then
    { best_fit := str "O(n)", r_squared := 0, coefficients := [],
      residuals := [], confidence_interval := [] }
  else
    let acc := complexity_names.foldl (fitStep fit input_sizes)
      { best_fit := none, best_r_squared := -1, best_coeffs := [],
        best_residuals := [] }
    { best_fit := acc.best_fit.getD (str "O(n)"),
      r_squared := acc.best_r_squared,
      coefficients := acc.best_coeffs,
      residuals := acc.best_residuals,
      confidence_interval :=
        calculate_confidence_interval acc.best_r_squared input_sizes.length sqrtn }

/-- The guarded per-candidate evaluation of the loop: `none` when the
candidate is skipped (`O(2^n)` above the overflow threshold, or a failed
fit), else the candidate's (label, R²) pair. -/
def candidate_eval (fit : List Char → Option FitCandidate) (sizes : List ℤ)
    (name : List Char) : Option ((List Char) × ℚ) :=
  if name = str "O(2^n)" ∧ pymax sizes > 20 then none
  else (fit name).map (fun fc => (name, fc.r_squared))

/-- The candidates the loop actually evaluates, with their R²: the fixed
enumeration minus the `O(2^n)` overflow skip and the failed fits. -/
def evaluated_candidates (fit : List Char → Option FitCandidate)
    (input_sizes : List ℤ) : List ((List Char) × ℚ) :=
  complexity_names.filterMap (candidate_eval fit input_sizes)

/-- `x` is the first pair of `l` attaining the maximal second component:
everything before it is strictly smaller and nothing after is larger. -/
def IsFirstMax (l : List ((List Char) × ℚ)) (x : (List Char) × ℚ) : Prop :=
  ∃ l1 l2, l = l1 ++ x :: l2 ∧
    (∀ p ∈ l1, p.2 < x.2) ∧ (∀ p ∈ l2, p.2 ≤ x.2)

/-- The pure selection step underlying `fitStep`, on (label, R²) pairs. -/
def maxStep (acc : Option (List Char) × ℚ) (p : (List Char) × ℚ) :
    Option (List Char) × ℚ :=
  if p.2 > acc.2 then (some p.1, p.2) else acc

/-- A performance point carrying only an execution time (the other fields
are irrelevant to the regression detector). -/
def timePoint (t : ℚ) : PerformancePoint :=
  { timestamp := 0, input_size := 0, execution_time := t, memory_usage := 0,
    cpu_usage := 0, algorithm_name := [], session_id := [] }

/-- Six points whose last three average 1.5 times the first three. -/
def c6_six_up : List PerformancePoint :=
  ([10, 10, 10, 15, 15, 15] : List ℚ).map timePoint

/-- Six points with at most 10% variation. -/
def c6_six_flat : List PerformancePoint :=
  ([10, 10, 10, 10, 11, 10] : List ℚ).map timePoint

/-- Four points with a tenfold jump in the last three. -/
def c6_four : List PerformancePoint :=
  ([1, 1, 10, 10] : List ℚ).map timePoint

/-- A concrete fit oracle: `O(n)` and `O(n²)` both fit perfectly (R² = 1),
every other candidate fails. -/
def c7_fit : List Char → Option FitCandidate := fun name =>
  if name = str "O(n)" then some { r_squared := 1, coefficients := [1, 0], residuals := [] }
  else if name = str "O(n²)" then some { r_squared := 1, coefficients := [2, 0], residuals := [] }
  else none

/-- Concrete input sizes (above the exponential-fit threshold). -/
def c7_sizes : List ℤ := [10, 100, 1000]

end Ana

namespace Dock

/-! ## Sandbox Executor (`backend/execution/docker_executor.py`) -/

/-- The `ResourceMetrics` dataclass. -/
structure ResourceMetrics where
  cpu_percent : ℚ
  memory_usage_mb : ℚ
  memory_limit_mb : ℚ
  execution_time : ℚ
  peak_memory_mb : ℚ
  network_io : List ((List Char) × ℤ)
  disk_io : List ((List Char) × ℤ)
deriving DecidableEq, Repr

/-- `DockerExecutor._get_empty_metrics`. -/
def get_empty_metrics : ResourceMetrics :=
  { cpu_percent := 0, memory_usage_mb := 0, memory_limit_mb := 128,
    execution_time := 0, peak_memory_mb := 0, network_io := [], disk_io := [] }

/-- The JSON payload printed on the last stdout line by the generated
measurement harness, as recovered by `json.loads` in
`_monitor_execution`. -/
structure ExecPayload where
  success : Bool
  result : Option (List Char)
  execution_time : ℚ
  memory_current : ℤ
  memory_peak : ℤ
  error : Option (List Char)
deriving DecidableEq, Repr

/-- The payload substituted when the last stdout line fails to parse
(the `json.JSONDecodeError`/`IndexError` branch of `_monitor_execution`). -/
def parse_failure_payload : ExecPayload :=
  { success := false, result := none, execution_time := 0,
    memory_current := 0, memory_peak := 0,
    error := some (str "Failed to parse execution result") }

/-- One `container.stats` sample, as read by `_collect_resource_metrics`. -/
structure StatsSample where
  cpu_total : ℤ
  precpu_total : ℤ
  system_cpu : ℤ
  presystem_cpu : ℤ
  mem_usage : ℤ
  mem_limit : ℤ
  networks : List ((List Char) × ℤ)
  blkio : List ((List Char) × ℤ)
deriving DecidableEq, Repr

/-- `DockerExecutor._collect_resource_metrics` on a successfully read
stats sample (`elapsed` is `time.perf_counter() - start_time`). -/
def collect_resource_metrics (s : StatsSample) (elapsed : ℚ) :
    ResourceMetrics :=
  let cpu_delta : ℚ := (s.cpu_total : ℚ) - (s.precpu_total : ℚ)
  let system_delta : ℚ := (s.system_cpu : ℚ) - (s.presystem_cpu : ℚ)
  { cpu_percent := if system_delta > 0 then cpu_delta / system_delta * 100 else 0,
    memory_usage_mb := (s.mem_usage : ℚ) / (1024 * 1024),
    memory_limit_mb := (s.mem_limit : ℚ) / (1024 * 1024),
    execution_time := elapsed,
    peak_memory_mb := (s.mem_usage : ℚ) / (1024 * 1024),
    network_io := s.networks,
    disk_io := s.blkio }

/-- The heuristic complexity dict built by
`DockerExecutor._analyze_complexity`. -/
structure ComplexityHeuristic where
  estimated_time_complexity : List Char
  estimated_space_complexity : List Char
  confidence : ℚ
  analysis_method : List Char
  execution_time : ℚ
  memory_usage_bytes : ℤ
deriving DecidableEq, Repr

/-- `DockerExecutor._analyze_complexity`: fixed time/memory thresholds. -/
def analyze_complexity (execution_time : ℚ) (memory_usage : ℤ) :
    ComplexityHeuristic :=
  { estimated_time_complexity :=
      if execution_time > 1 / 10 then str "O(n²)"
      else if execution_time > 1 / 100 then str "O(n log n)"
      else if execution_time > 1 / 1000 then str "O(n)"
      else str "O(1)",
    estimated_space_complexity :=
      if memory_usage > 50 * 1024 * 1024 then str "O(n²)"
      else if memory_usage > 10 * 1024 * 1024 then str "O(n)"
      else str "O(1)",
    confidence := 7 / 10, analysis_method := str "heuristic",
    execution_time := execution_time, memory_usage_bytes := memory_usage }

/-- The `ExecutionResult` dataclass; `complexity_analysis = none` models
the empty dict `{}` of the failure paths. -/
structure ExecutionResult where
  success : Bool
  result : Option (List Char)
  error : Option (List Char)
  execution_time : ℚ
  resource_metrics : ResourceMetrics
  complexity_analysis : Option ComplexityHeuristic
  stdout : List Char
  stderr : List Char
  exit_code : ℤ
deriving DecidableEq, Repr

/-- What the container interaction inside `_monitor_execution` produced:
either `container.wait` returned and the logs were read — with the parsed
last-line payload (`none` = parse failure) and the optional stats sample
(`none` when `_collect_resource_metrics` hit an exception) — or a
`docker.errors.ContainerError` was raised. -/
inductive MonitorEvent where
  | finished (exit_code : ℤ) (payload : Option ExecPayload)
      (stdout stderr : List Char) (stats : Option StatsSample)
  | containerError (exit_status : ℤ) (msg : List Char)
deriving DecidableEq, Repr

/-- `DockerExecutor._monitor_execution`. -/
def monitor_execution (ev : MonitorEvent) (elapsed : ℚ) : ExecutionResult :=
  match ev with
  | .finished exit_code payload stdout stderr stats =>
      let exec_result := payload.getD parse_failure_payload
      { success := exec_result.success,
        result := exec_result.result,
        error := exec_result.error,
        execution_time := exec_result.execution_time,
        resource_metrics :=
          match stats with
          | some s => collect_resource_metrics s elapsed
          | none => get_empty_metrics,
        complexity_analysis :=
          some (analyze_complexity exec_result.execution_time exec_result.memory_peak),
        stdout := stdout, stderr := stderr, exit_code := exit_code }
  | .containerError exit_status msg =>
      { success := false, result := none,
        error := some (str "Container error: " ++ msg),
        execution_time := elapsed,
        resource_metrics := get_empty_metrics,
        complexity_analysis := none,
        stdout := [], stderr := msg, exit_code := exit_status }

/-- The result built by `execute_algorithm`'s `except Exception` branch
(container creation failed, or monitoring raised outside
`ContainerError`): the exception message, empty metrics, exit code −1. -/
def failed_result (msg : List Char) : ExecutionResult :=
  { success := false, result := none, error := some msg,
    execution_time := 0, resource_metrics := get_empty_metrics,
    complexity_analysis := none, stdout := [], stderr := msg,
    exit_code := -1 }

/-- Outcome of one sandboxed run attempt: either an exception reached the
`except` branch of `execute_algorithm` (in particular, `_create_container`
raised), or the container started and monitoring produced an event. -/
inductive AttemptOutcome where
  | raised (msg : List Char)
  | ok (ev : MonitorEvent) (elapsed : ℚ)
deriving DecidableEq, Repr

/-- `DockerExecutor.execute_algorithm`, with the sandbox interaction
abstracted as an attempt-indexed sequence of outcomes.  The source calls
`_create_container` exactly once inside its `try` block — there is no
retry loop — so only `attempts 0` is consulted; the second component of
the returned pair records how many creation attempts were made. -/
def execute_algorithm (attempts : ℕ → AttemptOutcome) :
    ExecutionResult × ℕ :=
  match attempts 0 with
  | .raised msg => (failed_result msg, 1)
  | .ok ev elapsed => (monitor_execution ev elapsed, 1)

/-- A concrete attempt sequence whose first container creation fails while
a second attempt would have produced a clean run. -/
def c5_attempts : ℕ → AttemptOutcome := fun n =>
  if n = 0 then .raised (str "docker daemon unavailable")
  else .ok (.finished 0 none [] [] none) 0

end Dock

namespace TF

/-! ## Test Harness (`backend/testing/test_framework.py`) -/

/-- The `TestCase` dataclass; input and expected output are opaque to the
suite-level control flow and modelled as raw strings. -/
structure TestCasePy where
  name : List Char
  input_data : List Char
  expected_output : List Char
  timeout : ℚ := 5
  memory_limit : ℤ := 128
  description : List Char := []
  tags : Option (List (List Char)) := none
deriving DecidableEq, Repr

/-- One entry of a suite's `benchmarks` list
(`{"input_size": ..., "iterations": ...}`). -/
structure Benchmark where
  input_size : ℤ
  iterations : ℤ
deriving DecidableEq, Repr

/-- The `TestSuite` dataclass. -/
structure TestSuitePy where
  name : List Char
  algorithm_name : List Char
  test_cases : List TestCasePy
  setup_code : List Char := []
  teardown_code : List Char := []
  benchmarks : Option (List Benchmark) := none
deriving DecidableEq, Repr

/-- The `TestResult` dataclass. -/
structure TestResultPy where
  test_name : List Char
  passed : Bool
  execution_time : ℚ
  memory_usage : ℚ
  error_message : Option (List Char)
  output : List Char
  expected : Option (List Char)
  actual : Option (List Char)
deriving DecidableEq, Repr

/-- The `BenchmarkResult` dataclass. -/
structure BenchmarkResultPy where
  name : List Char
  input_size : ℤ
  execution_time : ℚ
  memory_usage : ℚ
  throughput : ℚ
  percentiles : List ((List Char) × ℚ)
deriving DecidableEq, Repr

/-- The `TestSuiteResult` dataclass. -/
structure TestSuiteResult where
  suite_name : List Char
  algorithm_name : List Char
  total_tests : ℤ
  passed_tests : ℤ
  failed_tests : ℤ
  execution_time : ℚ
  coverage_percentage : ℚ
  test_results : List TestResultPy
  benchmark_results : List BenchmarkResultPy
  security_score : ℚ
deriving DecidableEq, Repr

/-- Python `str.lower()`. -/
def toLowerL (l : List Char) : List Char := l.map Char.toLower

/-- `TestFramework._calculate_security_score`. -/
def calculate_security_score (test_results : List TestResultPy) : ℚ :=
  let security_tests := test_results.filter
    (fun r => pyContains (str "security") (toLowerL r.test_name))
  if security_tests = [] then 1 / 2
  else ((security_tests.filter (fun r => r.passed)).length : ℚ) /
    (security_tests.length : ℚ) * 100

/-- What `container.wait`, the log read and `_parse_test_results` yielded
for a suite run (the JSON/log parsing of the container artifacts is
abstracted to its parsed output). -/
structure ParsedRun where
  test_results : List TestResultPy
  benchmark_results : List BenchmarkResultPy
  coverage_percentage : ℚ
deriving DecidableEq, Repr

/-- `TestFramework._execute_tests` after a completed container run:
`total_tests = len(test_cases) + len(benchmarks or []) + 2` (the +2 are
the two always-generated security probes). -/
def execute_tests (suite : TestSuitePy) (run : ParsedRun) : TestSuiteResult :=
  let total_tests : ℤ :=
    suite.test_cases.length + (suite.benchmarks.getD []).length + 2
  let passed_tests : ℤ := (run.test_results.filter (fun r => r.passed)).length
  { suite_name := suite.name,
    algorithm_name := suite.algorithm_name,
    total_tests := total_tests,
    passed_tests := passed_tests,
    failed_tests := total_tests - passed_tests,
    execution_time := (run.test_results.map (fun r => r.execution_time)).sum,
    coverage_percentage := run.coverage_percentage,
    test_results := run.test_results,
    benchmark_results := run.benchmark_results,
    security_score := calculate_security_score run.test_results }

/-- Outcome of the `try` block of `run_test_suite`: either the test
container ran and its artifacts were parsed, or some step (writing test
files, launching the container, `_execute_tests`) raised. -/
inductive SuiteRunOutcome where
  | ok (run : ParsedRun)
  | raised
deriving DecidableEq, Repr

/-- Python truthiness of an optional list (`None` and `[]` are falsy). -/
def truthy {α : Type} : Option (List α) → Bool
  | some (_ :: _) => true
  | _ => false

/-- `self.test_suites.get(algorithm_name)` over the suites registry. -/
def lookupSuite (suites : List ((List Char) × TestSuitePy))
    (name : List Char) : Option TestSuitePy :=
  (suites.find? (fun p => p.1 = name)).map (fun p => p.2)

/-- The suite `run_test_suite` actually runs: the ad-hoc custom suite when
custom cases are (truthily) given, else the registered one; `none` is the
`ValueError` path. -/
def select_suite (suites : List ((List Char) × TestSuitePy))
    (algorithm_name : List Char) (custom_test_cases : Option (List TestCasePy)) :
    Option TestSuitePy :=
  if truthy custom_test_cases then
    some { name := str "Custom " ++ algorithm_name ++ str " Tests",
           algorithm_name := algorithm_name,
           test_cases := custom_test_cases.getD [] }
  else lookupSuite suites algorithm_name

/-- The two result paths of `run_test_suite`'s `try`/`except`: the
`_execute_tests` aggregate on success, and on any exception a
wholly-failed result whose `total_tests` is `len(suite.test_cases)`. -/
def run_with (algorithm_name : List Char) (suite : TestSuitePy)
    (outcome : SuiteRunOutcome) : TestSuiteResult :=
  match outcome with
  | .ok run => execute_tests suite run
  | .raised =>
      { suite_name := suite.name, algorithm_name := algorithm_name,
        total_tests := suite.test_cases.length, passed_tests := 0,
        failed_tests := suite.test_cases.length, execution_time := 0,
        coverage_percentage := 0, test_results := [],
        benchmark_results := [], security_score := 0 }

/-- `TestFramework.run_test_suite`: raise `ValueError` when no suite is
registered and no custom cases are given, else run the selected suite. -/
def run_test_suite (suites : List ((List Char) × TestSuitePy))
    (algorithm_name : List Char)
    (custom_test_cases : Option (List TestCasePy))
    (outcome : SuiteRunOutcome) : Except (List Char) TestSuiteResult :=
  match select_suite suites algorithm_name custom_test_cases with
  | none => .error (str "No test suite found for algorithm: " ++ algorithm_name)
  | some suite => .ok (run_with algorithm_name suite outcome)

/-- A concrete one-case custom suite input. -/
def c1_case : TestCasePy :=
  { name := str "basic_case", input_data := str "[2, 7, 11, 15], 9",
    expected_output := str "[0, 1]" }

end TF

/-!
# Theorems

Helper lemmas first (foldl invariants, per-step facts), then one theorem
per claim, with witnesses and counterexamples.
-/

namespace Sec

theorem riskLe_HIGH (a : RiskLevel) : riskLe a .HIGH := by
  cases a <;> decide

theorem report0_inv : ReportInv report0 := by
  refine ⟨by simp [report0], fun h => absurd rfl h, fun h => absurd rfl h⟩

theorem blockedStep_inv (code : List Char) (r : SecurityReport)
    (func : List Char) (h : ReportInv r) :
    ReportInv (blockedStep code r func) := by
  unfold blockedStep
  split
  · exact ⟨by simp, fun _ => rfl, fun hw => riskLe_HIGH _⟩
  · exact h

theorem suspiciousStep_inv (code : List Char) (r : SecurityReport)
    (pat : List Char) (h : ReportInv r) :
    ReportInv (suspiciousStep code r pat) := by
  unfold suspiciousStep
  split
  · refine ⟨h.1, fun hb => ?_, fun _ => ?_⟩
    · have hr := h.2.1 hb
      simp only [hr]
      rfl
    · rcases hr : r.risk_level with _ | _ | _ <;> simp [hr] <;> decide
  · exact h

theorem importStep_inv (cfg : SecurityConfig) (r : SecurityReport)
    (line : List Char) (h : ReportInv r) :
    ReportInv (importStep cfg r line) := by
  unfold importStep
  split
  · exact h
  · split
    · refine ⟨h.1, fun hb => ?_, fun _ => ?_⟩
      · have hr := h.2.1 hb
        simp only [hr]
        rfl
      · rcases hr : r.risk_level with _ | _ | _ <;> simp [hr] <;> decide
    · exact h

theorem fileOpStep_inv (cfg : SecurityConfig) (code : List Char)
    (r : SecurityReport) (op : List Char) (h : ReportInv r) :
    ReportInv (fileOpStep cfg code r op) := by
  unfold fileOpStep
  split
  · split
    · exact h
    · exact ⟨by simp, fun _ => rfl, fun hw => riskLe_HIGH _⟩
  · exact h

/-- The full-scan invariant: every report returned by
`validate_code_security` satisfies `ReportInv`. -/
theorem validate_inv (cfg : SecurityConfig) (code : List Char) :
    ReportInv (validate_code_security cfg code) := by
  unfold validate_code_security check_imports check_suspicious check_blocked
  apply foldl_inv ReportInv _ (fun r op h => fileOpStep_inv cfg code r op h)
  apply foldl_inv ReportInv _ (fun r line h => importStep_inv cfg r line h)
  apply foldl_inv ReportInv _ (fun r pat h => suspiciousStep_inv code r pat h)
  apply foldl_inv ReportInv _ (fun r f h => blockedStep_inv code r f h)
  exact report0_inv

theorem foldl_risk_mono {β : Type} (f : SecurityReport → β → SecurityReport)
    (h : ∀ r b, riskLe r.risk_level (f r b).risk_level) :
    ∀ (l : List β) (r : SecurityReport),
      riskLe r.risk_level (l.foldl f r).risk_level
  | [], _ => riskLe_refl _
  | b :: l, r => riskLe_trans (h r b) (foldl_risk_mono f h l (f r b))

theorem blockedStep_mono (code : List Char) (r : SecurityReport)
    (func : List Char) :
    riskLe r.risk_level (blockedStep code r func).risk_level := by
  unfold blockedStep
  split
  · exact riskLe_HIGH _
  · exact riskLe_refl _

theorem suspiciousStep_mono (code : List Char) (r : SecurityReport)
    (pat : List Char) :
    riskLe r.risk_level (suspiciousStep code r pat).risk_level := by
  unfold suspiciousStep
  split
  · rcases hr : r.risk_level with _ | _ | _ <;> simp [hr] <;> decide
  · exact riskLe_refl _

theorem importStep_mono (cfg : SecurityConfig) (r : SecurityReport)
    (line : List Char) :
    riskLe r.risk_level (importStep cfg r line).risk_level := by
  unfold importStep
  split
  · exact riskLe_refl _
  · split
    · rcases hr : r.risk_level with _ | _ | _ <;> simp [hr] <;> decide
    · exact riskLe_refl _

theorem fileOpStep_mono (cfg : SecurityConfig) (code : List Char)
    (r : SecurityReport) (op : List Char) :
    riskLe r.risk_level (fileOpStep cfg code r op).risk_level := by
  unfold fileOpStep
  split
  · split
    · exact riskLe_refl _
    · exact riskLe_HIGH _
  · exact riskLe_refl _

theorem blockedStep_blocked_mem (code : List Char) (r : SecurityReport)
    (b x : List Char) (hx : x ∈ r.blocked_items) :
    x ∈ (blockedStep code r b).blocked_items := by
  unfold blockedStep
  split
  · exact List.mem_append_left _ hx
  · exact hx

theorem suspiciousStep_blocked_mem (code : List Char) (r : SecurityReport)
    (b x : List Char) (hx : x ∈ r.blocked_items) :
    x ∈ (suspiciousStep code r b).blocked_items := by
  unfold suspiciousStep
  split
  · exact hx
  · exact hx

theorem importStep_blocked_mem (cfg : SecurityConfig) (r : SecurityReport)
    (b : List Char) (x : List Char) (hx : x ∈ r.blocked_items) :
    x ∈ (importStep cfg r b).blocked_items := by
  unfold importStep
  split
  · exact hx
  · split
    · exact hx
    · exact hx

theorem fileOpStep_blocked_mem (cfg : SecurityConfig) (code : List Char)
    (r : SecurityReport) (b x : List Char) (hx : x ∈ r.blocked_items) :
    x ∈ (fileOpStep cfg code r b).blocked_items := by
  unfold fileOpStep
  split
  · split
    · exact hx
    · exact List.mem_append_left _ hx
  · exact hx

/-- A matching blocked function leaves its item in the blocked list of the
whole blocked-function fold. -/
theorem foldl_blockedStep_mem (code func : List Char)
    (h2 : pyContains func code = true) :
    ∀ (l : List (List Char)) (r : SecurityReport), func ∈ l →
      (str "Blocked function: " ++ func) ∈
        (l.foldl (blockedStep code) r).blocked_items := by
  intro l
  induction l with
  | nil => intro r h; cases h
  | cons b t ih =>
      intro r h
      rcases List.mem_cons.mp h with rfl | hmem
      · have hstart : (str "Blocked function: " ++ func) ∈
            (blockedStep code r func).blocked_items := by
          simp [blockedStep, h2]
        exact foldl_inv (fun a => (str "Blocked function: " ++ func) ∈ a.blocked_items)
          _ (fun a c hc => blockedStep_blocked_mem code a c _ hc) t
          (blockedStep code r func) hstart
      · exact ih (blockedStep code r b) hmem

/-- A matching blocked function puts its item in the final report. -/
theorem validate_blocked_mem (cfg : SecurityConfig) (code func : List Char)
    (h1 : func ∈ cfg.blocked_functions) (h2 : pyContains func code = true) :
    (str "Blocked function: " ++ func) ∈
      (validate_code_security cfg code).blocked_items := by
  unfold validate_code_security check_imports check_suspicious check_blocked
  apply foldl_inv (fun a => (str "Blocked function: " ++ func) ∈ a.blocked_items)
    _ (fun a c hc => fileOpStep_blocked_mem cfg code a c _ hc)
  apply foldl_inv (fun a => (str "Blocked function: " ++ func) ∈ a.blocked_items)
    _ (fun a c hc => importStep_blocked_mem cfg a c _ hc)
  apply foldl_inv (fun a => (str "Blocked function: " ++ func) ∈ a.blocked_items)
    _ (fun a c hc => suspiciousStep_blocked_mem code a c _ hc)
  exact foldl_blockedStep_mem code func h2 cfg.blocked_functions report0 h1

end Sec

/-- C3: any code containing a denylisted call name (in particular, code
whose only disallowed construct is a single such call) is reported unsafe
with risk `HIGH`, and that call name appears in the blocked-items list. -/
theorem C3_blocked_call_reported (cfg : Sec.SecurityConfig)
    (code func : List Char) (h1 : func ∈ cfg.blocked_functions)
    (h2 : pyContains func code = true) :
    (Sec.validate_code_security cfg code).safe = false ∧
    (Sec.validate_code_security cfg code).risk_level = .HIGH ∧
    (str "Blocked function: " ++ func) ∈
      (Sec.validate_code_security cfg code).blocked_items := by
  have hmem := Sec.validate_blocked_mem cfg code func h1 h2
  have hne : (Sec.validate_code_security cfg code).blocked_items ≠ [] :=
    List.ne_nil_of_mem hmem
  have hinv := Sec.validate_inv cfg code
  refine ⟨?_, hinv.2.1 hne, hmem⟩
  rcases hs : (Sec.validate_code_security cfg code).safe with _ | _
  · rfl
  · exact absurd (hinv.1.mp hs) hne

/-- C3 witness: the single blocked call `eval` under the default
configuration. -/
theorem C3_witness :
    (Sec.validate_code_security Sec.default_config (str "x = eval")).safe = false ∧
    (Sec.validate_code_security Sec.default_config (str "x = eval")).risk_level = .HIGH ∧
    (str "Blocked function: " ++ str "eval") ∈
      (Sec.validate_code_security Sec.default_config (str "x = eval")).blocked_items :=
  C3_blocked_call_reported Sec.default_config (str "x = eval") (str "eval")
    (by decide) (by decide)

namespace Sec

theorem blockedStep_id (code : List Char) (func : List Char)
    (h : pyContains func code = false) (r : SecurityReport) :
    blockedStep code r func = r := by
  unfold blockedStep
  rw [h]
  rfl

theorem suspiciousStep_id (code : List Char) (pat : List Char)
    (h : pyContains pat code = false) (r : SecurityReport) :
    suspiciousStep code r pat = r := by
  unfold suspiciousStep
  rw [h]
  rfl

theorem importStep_id (cfg : SecurityConfig) (line : List Char)
    (h : importOk cfg line = true) (r : SecurityReport) :
    importStep cfg r line = r := by
  unfold importOk at h
  unfold importStep
  split
  · rfl
  · next m heq =>
      rw [heq] at h
      split
      · next hcond =>
          rcases of_decide_eq_true h with he | hmem
          · exact absurd he hcond.1
          · exact absurd hmem hcond.2
      · rfl

theorem fileOpStep_id (cfg : SecurityConfig) (code : List Char)
    (op : List Char) (h : pyContains op code = false) (r : SecurityReport) :
    fileOpStep cfg code r op = r := by
  unfold fileOpStep
  rw [h]
  rfl

/-- Clean code leaves the report at its initial state. -/
theorem validate_clean_eq (cfg : SecurityConfig) (code : List Char)
    (hb : ∀ f ∈ cfg.blocked_functions, pyContains f code = false)
    (hs : ∀ p ∈ suspicious_patterns, pyContains p code = false)
    (hi : ∀ line ∈ import_lines code, importOk cfg line = true)
    (hf : ∀ op ∈ file_operations, pyContains op code = false) :
    validate_code_security cfg code = report0 := by
  unfold validate_code_security check_imports check_suspicious check_blocked
  rw [foldl_id _ _ (fun r f hm => blockedStep_id code f (hb f hm) r)]
  rw [foldl_id _ _ (fun r p hm => suspiciousStep_id code p (hs p hm) r)]
  rw [foldl_id _ _ (fun r line hm => importStep_id cfg line (hi line hm) r)]
  rw [foldl_id _ _ (fun r op hm => fileOpStep_id cfg code op (hf op hm) r)]

end Sec

/-- C4: legal code — no denylisted call, no suspicious pattern, every
module of every import line allowlisted (or absent/empty), and no file
operation — is reported with risk level `LOW`. -/
theorem C4_allowlisted_low (cfg : Sec.SecurityConfig) (code : List Char)
    (hb : ∀ f ∈ cfg.blocked_functions, pyContains f code = false)
    (hs : ∀ p ∈ Sec.suspicious_patterns, pyContains p code = false)
    (hi : ∀ line ∈ Sec.import_lines code, Sec.importOk cfg line = true)
    (hf : ∀ op ∈ Sec.file_operations, pyContains op code = false) :
    (Sec.validate_code_security cfg code).risk_level = .LOW := by
  rw [Sec.validate_clean_eq cfg code hb hs hi hf]
  rfl

/-- C4 witness: `import math` under the default configuration. -/
theorem C4_witness :
    (Sec.validate_code_security Sec.default_config (str "import math")).risk_level = .LOW :=
  C4_allowlisted_low Sec.default_config (str "import math")
    (by decide) (by decide) (by decide) (by decide)

/-- C9: within one `validate_code_security` scan the risk level only
escalates across the four checks (blocked functions, suspicious patterns,
then imports, then file operations), and the final risk level dominates
every recorded finding: any blocked item forces `HIGH`, any warning
forces at least `MEDIUM`. -/
theorem C9_risk_monotonic (cfg : Sec.SecurityConfig) (code : List Char) :
    Sec.riskLe Sec.report0.risk_level (Sec.check_blocked cfg code).risk_level ∧
    Sec.riskLe (Sec.check_blocked cfg code).risk_level
      (Sec.check_suspicious cfg code).risk_level ∧
    Sec.riskLe (Sec.check_suspicious cfg code).risk_level
      (Sec.check_imports cfg code).risk_level ∧
    Sec.riskLe (Sec.check_imports cfg code).risk_level
      (Sec.validate_code_security cfg code).risk_level ∧
    ((Sec.validate_code_security cfg code).blocked_items ≠ [] →
      (Sec.validate_code_security cfg code).risk_level = .HIGH) ∧
    ((Sec.validate_code_security cfg code).warnings ≠ [] →
      Sec.riskLe .MEDIUM (Sec.validate_code_security cfg code).risk_level) := by
  have hinv := Sec.validate_inv cfg code
  refine ⟨?_, ?_, ?_, ?_, hinv.2.1, hinv.2.2⟩
  · exact Sec.foldl_risk_mono _ (fun r f => Sec.blockedStep_mono code r f) _ _
  · exact Sec.foldl_risk_mono _ (fun r p => Sec.suspiciousStep_mono code r p) _ _
  · exact Sec.foldl_risk_mono _ (fun r line => Sec.importStep_mono cfg r line) _ _
  · exact Sec.foldl_risk_mono _ (fun r op => Sec.fileOpStep_mono cfg code r op) _ _

/-- C9 witness: a suspicious-pattern finding under the default
configuration forces risk at least `MEDIUM`. -/
theorem C9_witness :
    Sec.riskLe .MEDIUM
      (Sec.validate_code_security Sec.default_config
        (str "setattr(a, b, c)")).risk_level :=
  (C9_risk_monotonic Sec.default_config (str "setattr(a, b, c)")).2.2.2.2.2
    (by decide)

/-- C10: a report is unsafe exactly when its blocked-items list is
nonempty, and an unsafe report always has risk level `HIGH`. -/
theorem C10_safe_iff_blocked (cfg : Sec.SecurityConfig) (code : List Char) :
    ((Sec.validate_code_security cfg code).safe = false ↔
      (Sec.validate_code_security cfg code).blocked_items ≠ []) ∧
    ((Sec.validate_code_security cfg code).safe = false →
      (Sec.validate_code_security cfg code).risk_level = .HIGH) := by
  have hinv := Sec.validate_inv cfg code
  constructor
  · constructor
    · intro hs hempty
      rw [hinv.1.mpr hempty] at hs
      cases hs
    · intro hne
      rcases hb : (Sec.validate_code_security cfg code).safe with _ | _
      · rfl
      · exact absurd (hinv.1.mp hb) hne
  · intro hs
    apply hinv.2.1
    intro hempty
    rw [hinv.1.mpr hempty] at hs
    cases hs

/-- C10 witness: `exec(cmd)` yields an unsafe report, hence risk `HIGH`. -/
theorem C10_witness :
    (Sec.validate_code_security Sec.default_config (str "exec(cmd)")).risk_level = .HIGH :=
  (C10_safe_iff_blocked Sec.default_config (str "exec(cmd)")).2 (by decide)

namespace Ana

/-- For histories of at least 5 points, the code's `older` window equals
the up-to-3 points immediately preceding the last 3. -/
theorem older_window_eq (points : List PerformancePoint)
    (h5 : 5 ≤ points.length) :
    (if 6 ≤ points.length then (points.drop (points.length - 6)).take 3
     else points.take (points.length - 3)) =
    (points.take (points.length - 3)).drop (points.length - 6) := by
  rcases Nat.lt_or_ge points.length 6 with h6 | h6
  · rw [if_neg (by omega)]
    rw [show points.length - 6 = 0 by omega, List.drop_zero]
  · rw [if_pos h6, List.drop_take]
    rw [show points.length - 3 - (points.length - 6) = 3 by omega]

end Ana

/-- C6 (amended): for histories of at least 5 points the detector flags a
regression exactly when the mean execution time of the most recent 3
points exceeds the mean of the up-to-3 immediately preceding points by
more than 20%; histories of fewer than 5 points always report `false`
without comparing.  In particular, six points whose last three average
1.5× the first three flag `true`, and six points with ≤10% variation flag
`false`. -/
theorem C6_regression_rule :
    (∀ points : List Ana.PerformancePoint, points.length < 5 →
      Ana.detect_performance_regression points = false) ∧
    (∀ points : List Ana.PerformancePoint, 5 ≤ points.length →
      Ana.detect_performance_regression points = Ana.regression_spec points) ∧
    Ana.detect_performance_regression Ana.c6_six_up = true ∧
    Ana.detect_performance_regression Ana.c6_six_flat = false := by
  refine ⟨?_, ?_, ?_, ?_⟩
  · intro points h
    unfold Ana.detect_performance_regression
    rw [if_pos h]
  · intro points h5
    have h45 : ¬ points.length < 5 := by omega
    have h44 : ¬ points.length < 4 := by omega
    simp only [Ana.detect_performance_regression, Ana.regression_spec,
      if_neg h45, if_neg h44, Ana.older_window_eq points h5]
  · norm_num [Ana.detect_performance_regression, Ana.c6_six_up,
      Ana.timePoint, Ana.qmean]
  · norm_num [Ana.detect_performance_regression, Ana.c6_six_flat,
      Ana.timePoint, Ana.qmean]

/-- C6 witness: the amended rule applied to a concrete 5-point history
(times 1,1,1,2,2: recent mean 5/3 exceeds 1.2 times the prior mean 1). -/
theorem C6_witness :
    Ana.detect_performance_regression (([1, 1, 1, 2, 2] : List ℚ).map Ana.timePoint) =
      Ana.regression_spec (([1, 1, 1, 2, 2] : List ℚ).map Ana.timePoint) ∧
    Ana.detect_performance_regression (([1, 1, 1, 2, 2] : List ℚ).map Ana.timePoint) = true :=
  ⟨C6_regression_rule.2.1 (([1, 1, 1, 2, 2] : List ℚ).map Ana.timePoint) (by decide),
   by norm_num [Ana.detect_performance_regression, Ana.timePoint, Ana.qmean]⟩

/-- C6 counterexample: a 4-point history (times 1,1,10,10) where the
claim's compare-the-means rule — "preceding 3 points, or fewer if the
history is short" — flags a regression, but the code returns `false`
because it bails out below 5 points. -/
theorem C6_counterexample :
    Ana.regression_spec Ana.c6_four = true ∧
    Ana.detect_performance_regression Ana.c6_four = false := by
  constructor
  · norm_num [Ana.regression_spec, Ana.c6_four, Ana.timePoint, Ana.qmean]
  · norm_num [Ana.detect_performance_regression, Ana.c6_four]

namespace Ana

/-- The candidate loop of `analyze_time_complexity` computes, in its
`best_fit`/`best_r_squared` fields, exactly the `maxStep` fold over the
evaluated (label, R²) pairs. -/
theorem fitStep_foldl_eq (fit : List Char → Option FitCandidate)
    (sizes : List ℤ) :
    ∀ (names : List (List Char)) (ob : Option (List Char)) (br : ℚ)
      (bc brd : List ℚ),
      ((names.foldl (fitStep fit sizes) ⟨ob, br, bc, brd⟩).best_fit,
       (names.foldl (fitStep fit sizes) ⟨ob, br, bc, brd⟩).best_r_squared) =
      (names.filterMap (candidate_eval fit sizes)).foldl maxStep (ob, br) := by
  intro names
  induction names with
  | nil => intro ob br bc brd; rfl
  | cons name rest ih =>
      intro ob br bc brd
      by_cases hskip : name = str "O(2^n)" ∧ pymax sizes > 20
      · have hhead : candidate_eval fit sizes name = none := by
          unfold candidate_eval
          rw [if_pos hskip]
        rw [List.filterMap_cons_none hhead, List.foldl_cons]
        have hstep : fitStep fit sizes ⟨ob, br, bc, brd⟩ name = ⟨ob, br, bc, brd⟩ := by
          unfold fitStep
          rw [if_pos hskip]
        rw [hstep]
        exact ih ob br bc brd
      · rcases hf : fit name with _ | fc
        · have hhead : candidate_eval fit sizes name = none := by
            unfold candidate_eval
            rw [if_neg hskip, hf]
            rfl
          rw [List.filterMap_cons_none hhead, List.foldl_cons]
          have hstep : fitStep fit sizes ⟨ob, br, bc, brd⟩ name = ⟨ob, br, bc, brd⟩ := by
            unfold fitStep
            rw [if_neg hskip, hf]
          rw [hstep]
          exact ih ob br bc brd
        · have hhead : candidate_eval fit sizes name = some (name, fc.r_squared) := by
            unfold candidate_eval
            rw [if_neg hskip, hf]
            rfl
          rw [List.filterMap_cons_some hhead, List.foldl_cons, List.foldl_cons]
          by_cases hgt : fc.r_squared > br
          · have hstep : fitStep fit sizes ⟨ob, br, bc, brd⟩ name =
                ⟨some name, fc.r_squared, fc.coefficients, fc.residuals⟩ := by
              unfold fitStep
              rw [if_neg hskip, hf]
              exact if_pos hgt
            have hmax : maxStep (ob, br) (name, fc.r_squared) =
                (some name, fc.r_squared) := by
              unfold maxStep
              exact if_pos hgt
            rw [hstep, hmax]
            exact ih (some name) fc.r_squared fc.coefficients fc.residuals
          · have hstep : fitStep fit sizes ⟨ob, br, bc, brd⟩ name = ⟨ob, br, bc, brd⟩ := by
              unfold fitStep
              rw [if_neg hskip, hf]
              exact if_neg hgt
            have hmax : maxStep (ob, br) (name, fc.r_squared) = (ob, br) := by
              unfold maxStep
              exact if_neg hgt
            rw [hstep, hmax]
            exact ih ob br bc brd

/-- The `maxStep` fold either leaves the accumulator untouched (when no
value beats it) or returns the first pair that attains the running
maximum: everything before it is strictly smaller, nothing after it is
larger. -/
theorem maxStep_foldl_spec :
    ∀ (l : List ((List Char) × ℚ)) (acc : Option (List Char) × ℚ),
      (l.foldl maxStep acc = acc ∧ ∀ p ∈ l, p.2 ≤ acc.2) ∨
      (∃ l1 x l2, l = l1 ++ x :: l2 ∧
        l.foldl maxStep acc = (some x.1, x.2) ∧ acc.2 < x.2 ∧
        (∀ p ∈ l1, p.2 < x.2) ∧ (∀ p ∈ l2, p.2 ≤ x.2)) := by
  intro l
  induction l with
  | nil => intro acc; exact Or.inl ⟨rfl, fun p hp => absurd hp (List.not_mem_nil p)⟩
  | cons p t ih =>
      intro acc
      rw [List.foldl_cons]
      by_cases hp : acc.2 < p.2
      · have hstep : maxStep acc p = (some p.1, p.2) := by
          unfold maxStep
          exact if_pos hp
        rw [hstep]
        rcases ih (some p.1, p.2) with ⟨heq, hall⟩ | ⟨l1, x, l2, hsplit, heq, hlt, h1, h2⟩
        · right
          exact ⟨[], p, t, rfl, heq, hp,
            fun q hq => absurd hq (List.not_mem_nil q),
            fun q hq => hall q hq⟩
        · right
          refine ⟨p :: l1, x, l2, by rw [hsplit, List.cons_append], heq, lt_trans hp hlt, ?_, h2⟩
          intro q hq
          rcases List.mem_cons.mp hq with rfl | hq2
          · exact hlt
          · exact h1 q hq2
      · have hstep : maxStep acc p = acc := by
          unfold maxStep
          exact if_neg hp
        rw [hstep]
        have hple : p.2 ≤ acc.2 := le_of_not_lt hp
        rcases ih acc with ⟨heq, hall⟩ | ⟨l1, x, l2, hsplit, heq, hlt, h1, h2⟩
        · left
          refine ⟨heq, ?_⟩
          intro q hq
          rcases List.mem_cons.mp hq with rfl | hq2
          · exact hple
          · exact hall q hq2
        · right
          refine ⟨p :: l1, x, l2, by rw [hsplit, List.cons_append], heq, hlt, ?_, h2⟩
          intro q hq
          rcases List.mem_cons.mp hq with rfl | hq2
          · exact lt_of_le_of_lt hple hlt
          · exact h1 q hq2

/-- Every evaluated candidate pair carries the R² of a successful fit. -/
theorem evaluated_r_squared_nonneg (fit : List Char → Option FitCandidate)
    (input_sizes : List ℤ)
    (hpos : ∀ name fc, fit name = some fc → 0 ≤ fc.r_squared) :
    ∀ p ∈ evaluated_candidates fit input_sizes, 0 ≤ p.2 := by
  intro p hp
  unfold evaluated_candidates at hp
  rcases List.mem_filterMap.mp hp with ⟨name, _, heq⟩
  unfold candidate_eval at heq
  by_cases hskip : name = str "O(2^n)" ∧ pymax input_sizes > 20
  · rw [if_pos hskip] at heq
    cases heq
  · rw [if_neg hskip] at heq
    rcases hf : fit name with _ | fc
    · rw [hf] at heq
      cases heq
    · rw [hf, Option.map_some'] at heq
      have hpe : (name, fc.r_squared) = p := Option.some.inj heq
      rw [← hpe]
      exact hpos name fc hf

end Ana

/-- C7: with at least 3 observations and at least one successfully
evaluated candidate, `analyze_time_complexity` returns the label and R²
of the first candidate — in the least-to-most-complex enumeration —
attaining the maximal R² among the candidates actually evaluated; and the
`O(2^n)` candidate is never among the evaluated ones when the maximum
input size exceeds the overflow threshold. -/
theorem C7_first_max_fit (fit : List Char → Option Ana.FitCandidate)
    (sqrtn : ℚ) (input_sizes : List ℤ)
    (hlen : 3 ≤ input_sizes.length)
    (hpos : ∀ name fc, fit name = some fc → 0 ≤ fc.r_squared)
    (hne : Ana.evaluated_candidates fit input_sizes ≠ []) :
    Ana.IsFirstMax (Ana.evaluated_candidates fit input_sizes)
      ((Ana.analyze_time_complexity fit sqrtn input_sizes).best_fit,
       (Ana.analyze_time_complexity fit sqrtn input_sizes).r_squared) ∧
    (Ana.pymax input_sizes > 20 →
      ∀ r : ℚ, (str "O(2^n)", r) ∉ Ana.evaluated_candidates fit input_sizes) := by
  constructor
  · have hnotlt : ¬ input_sizes.length < 3 := by omega
    have hbf : (Ana.analyze_time_complexity fit sqrtn input_sizes).best_fit =
        (Ana.complexity_names.foldl (Ana.fitStep fit input_sizes)
          ⟨none, -1, [], []⟩).best_fit.getD (str "O(n)") := by
      unfold Ana.analyze_time_complexity
      rw [if_neg hnotlt]
    have hrs : (Ana.analyze_time_complexity fit sqrtn input_sizes).r_squared =
        (Ana.complexity_names.foldl (Ana.fitStep fit input_sizes)
          ⟨none, -1, [], []⟩).best_r_squared := by
      unfold Ana.analyze_time_complexity
      rw [if_neg hnotlt]
    have hcorr := Ana.fitStep_foldl_eq fit input_sizes Ana.complexity_names
      none (-1) [] []
    have heval : Ana.evaluated_candidates fit input_sizes =
        Ana.complexity_names.filterMap (Ana.candidate_eval fit input_sizes) := rfl
    rw [← heval] at hcorr
    rcases Ana.maxStep_foldl_spec (Ana.evaluated_candidates fit input_sizes)
        (none, -1) with ⟨heq, hall⟩ | ⟨l1, x, l2, hsplit, heq, hlt, h1, h2⟩
    · rcases List.exists_mem_of_ne_nil _ hne with ⟨p, hp⟩
      have h0 := Ana.evaluated_r_squared_nonneg fit input_sizes hpos p hp
      have hle2 : p.2 ≤ (-1 : ℚ) := hall p hp
      linarith
    · rw [heq] at hcorr
      have hfst : (Ana.complexity_names.foldl (Ana.fitStep fit input_sizes)
          ⟨none, -1, [], []⟩).best_fit = some x.1 := congrArg Prod.fst hcorr
      have hsnd : (Ana.complexity_names.foldl (Ana.fitStep fit input_sizes)
          ⟨none, -1, [], []⟩).best_r_squared = x.2 := congrArg Prod.snd hcorr
      have hxpair : ((Ana.analyze_time_complexity fit sqrtn input_sizes).best_fit,
          (Ana.analyze_time_complexity fit sqrtn input_sizes).r_squared) = x := by
        rw [hbf, hrs, hfst, hsnd]
        simp
      rw [hxpair]
      exact ⟨l1, l2, hsplit, h1, h2⟩
  · intro h20 r hmem
    unfold Ana.evaluated_candidates at hmem
    rcases List.mem_filterMap.mp hmem with ⟨name, _, heq⟩
    unfold Ana.candidate_eval at heq
    by_cases hskip : name = str "O(2^n)" ∧ Ana.pymax input_sizes > 20
    · rw [if_pos hskip] at heq
      cases heq
    · rw [if_neg hskip] at heq
      rcases hf : fit name with _ | fc
      · rw [hf] at heq
        cases heq
      · rw [hf, Option.map_some'] at heq
        have hpair := Option.some.inj heq
        exact hskip ⟨congrArg Prod.fst hpair, h20⟩

/-- C7 witness: a tie between `O(n)` and `O(n²)` at R² = 1 over sizes
10, 100, 1000 resolves to the earlier candidate `O(n)`. -/
theorem C7_witness :
    (Ana.analyze_time_complexity Ana.c7_fit 0 Ana.c7_sizes).best_fit = str "O(n)" ∧
    Ana.IsFirstMax (Ana.evaluated_candidates Ana.c7_fit Ana.c7_sizes)
      ((Ana.analyze_time_complexity Ana.c7_fit 0 Ana.c7_sizes).best_fit,
       (Ana.analyze_time_complexity Ana.c7_fit 0 Ana.c7_sizes).r_squared) :=
  ⟨by decide,
   (C7_first_max_fit Ana.c7_fit 0 Ana.c7_sizes (by decide)
      (by
        intro name fc h
        unfold Ana.c7_fit at h
        split at h
        · rw [Option.some.injEq] at h
          rw [← h]
          decide
        · split at h
          · rw [Option.some.injEq] at h
            rw [← h]
            decide
          · cases h)
      (by decide)).1⟩

/-- C8: with fewer than 3 observations `analyze_time_complexity` returns
normally, with the default fit — label `O(n)`, R² (confidence) zero,
empty coefficients, residuals and confidence interval. -/
theorem C8_default_fit (fit : List Char → Option Ana.FitCandidate)
    (sqrtn : ℚ) (input_sizes : List ℤ) (h : input_sizes.length < 3) :
    Ana.analyze_time_complexity fit sqrtn input_sizes =
      { best_fit := str "O(n)", r_squared := 0, coefficients := [],
        residuals := [], confidence_interval := [] } := by
  unfold Ana.analyze_time_complexity
  rw [if_pos h]

/-- C8 witness: two observations yield the zero-confidence default fit. -/
theorem C8_witness :
    Ana.analyze_time_complexity (fun _ => none) 0 [100, 500] =
      { best_fit := str "O(n)", r_squared := 0, coefficients := [],
        residuals := [], confidence_interval := [] } :=
  C8_default_fit (fun _ => none) 0 [100, 500] (by decide)

/-- C2 counterexample: a `docker.errors.ContainerError` — a failure that
occurs only after the sandbox has started — yields a failed
ExecutionResult whose ResourceMetrics are the zeroed/empty metrics,
contradicting the claim that metrics are populated on container errors. -/
theorem C2_counterexample :
    (Dock.monitor_execution (.containerError 2 (str "exit status 2")) 1).success = false ∧
    (Dock.monitor_execution (.containerError 2 (str "exit status 2")) 1).resource_metrics =
      Dock.get_empty_metrics := by
  constructor
  · rfl
  · rfl

/-- C2 (amended): a failed ExecutionResult carries empty metrics on the
pre-sandbox exception path; after the sandbox has started, metrics are the
collected container stats whenever stats collection succeeds (runtime and
parse errors included), and the parse-error payload carries a fixed
non-empty message — but the container-error path returns empty metrics
(with a non-empty `Container error:` message), and a failed stats read
also leaves metrics empty. -/
theorem C2_failure_metrics :
    (∀ (ec : ℤ) (msg : List Char) (elapsed : ℚ),
      (Dock.monitor_execution (.containerError ec msg) elapsed).success = false ∧
      (Dock.monitor_execution (.containerError ec msg) elapsed).error =
        some (str "Container error: " ++ msg) ∧
      (Dock.monitor_execution (.containerError ec msg) elapsed).resource_metrics =
        Dock.get_empty_metrics) ∧
    (∀ (ec : ℤ) (payload : Option Dock.ExecPayload) (so se : List Char)
        (s : Dock.StatsSample) (elapsed : ℚ),
      (Dock.monitor_execution (.finished ec payload so se (some s)) elapsed).resource_metrics =
        Dock.collect_resource_metrics s elapsed) ∧
    (∀ (ec : ℤ) (payload : Option Dock.ExecPayload) (so se : List Char) (elapsed : ℚ),
      (Dock.monitor_execution (.finished ec payload so se none) elapsed).resource_metrics =
        Dock.get_empty_metrics) ∧
    (∀ (ec : ℤ) (so se : List Char) (stats : Option Dock.StatsSample) (elapsed : ℚ),
      (Dock.monitor_execution (.finished ec none so se stats) elapsed).success = false ∧
      (Dock.monitor_execution (.finished ec none so se stats) elapsed).error =
        some (str "Failed to parse execution result")) ∧
    (∀ msg : List Char,
      (Dock.failed_result msg).success = false ∧
      (Dock.failed_result msg).error = some msg ∧
      (Dock.failed_result msg).resource_metrics = Dock.get_empty_metrics) := by
  refine ⟨fun ec msg elapsed => ⟨rfl, rfl, rfl⟩,
          fun ec payload so se s elapsed => rfl,
          fun ec payload so se elapsed => rfl,
          fun ec so se stats elapsed => ⟨rfl, rfl⟩,
          fun msg => ⟨rfl, rfl, rfl⟩⟩

/-- C5 counterexample: with a first container-creation attempt that fails
and a second that would succeed, `execute_algorithm` makes exactly one
creation attempt and surfaces the failure — it does not retry. -/
theorem C5_counterexample :
    (Dock.execute_algorithm Dock.c5_attempts).2 = 1 ∧
    (Dock.execute_algorithm Dock.c5_attempts).1.success = false ∧
    (Dock.execute_algorithm Dock.c5_attempts).1.error =
      some (str "docker daemon unavailable") ∧
    Dock.c5_attempts 1 = .ok (.finished 0 none [] [] none) 0 := by
  refine ⟨rfl, rfl, rfl, rfl⟩

/-- C5 (amended): when creating the sandboxed environment fails,
`execute_algorithm` surfaces the failure immediately as a failed
ExecutionResult carrying the exception message and empty metrics, after
exactly one creation attempt — no error kind is retried. -/
theorem C5_no_retry (attempts : ℕ → Dock.AttemptOutcome) (msg : List Char)
    (h : attempts 0 = .raised msg) :
    Dock.execute_algorithm attempts = (Dock.failed_result msg, 1) := by
  unfold Dock.execute_algorithm
  rw [h]

/-- C5 witness: the no-retry behaviour at the concrete failing attempt
sequence. -/
theorem C5_witness :
    Dock.execute_algorithm Dock.c5_attempts =
      (Dock.failed_result (str "docker daemon unavailable"), 1) :=
  C5_no_retry Dock.c5_attempts (str "docker daemon unavailable") rfl

/-- C1 counterexample: a custom one-case suite whose sandbox launch fails
returns `total_tests = 1`, not `1 + 0 + 2 = 3` as the claim requires on
every run including the failure path. -/
theorem C1_counterexample :
    (TF.run_test_suite [] (str "two_sum") (some [TF.c1_case]) .raised).map
      TF.TestSuiteResult.total_tests = .ok 1 ∧
    (TF.select_suite [] (str "two_sum") (some [TF.c1_case])).map
      (fun s => (s.test_cases.length : ℤ) + ((s.benchmarks.getD []).length : ℤ) + 2) =
      some 3 ∧
    (1 : ℤ) ≠ 3 := by
  refine ⟨rfl, rfl, by decide⟩

/-- C1 (amended): a completed suite run reports
`total_tests = len(test_cases) + len(benchmarks or []) + 2`, but on the
exception path (sandbox launch or test execution failed) the returned
wholly-failed TestSuiteResult has `total_tests = len(test_cases)` — the
declared benchmarks and the two security probes are not counted there. -/
theorem C1_total_tests (suites : List ((List Char) × TF.TestSuitePy))
    (alg : List Char) (custom : Option (List TF.TestCasePy))
    (outcome : TF.SuiteRunOutcome) (suite : TF.TestSuitePy)
    (hsel : TF.select_suite suites alg custom = some suite) :
    TF.run_test_suite suites alg custom outcome =
      .ok (TF.run_with alg suite outcome) ∧
    (∀ run : TF.ParsedRun, outcome = .ok run →
      (TF.run_with alg suite outcome).total_tests =
        (suite.test_cases.length : ℤ) + ((suite.benchmarks.getD []).length : ℤ) + 2) ∧
    (outcome = .raised →
      (TF.run_with alg suite outcome).total_tests = (suite.test_cases.length : ℤ) ∧
      (TF.run_with alg suite outcome).passed_tests = 0 ∧
      (TF.run_with alg suite outcome).failed_tests = (suite.test_cases.length : ℤ)) := by
  refine ⟨?_, ?_, ?_⟩
  · unfold TF.run_test_suite
    rw [hsel]
  · intro run hrun
    subst hrun
    rfl
  · intro hrais
    subst hrais
    exact ⟨rfl, rfl, rfl⟩

/-- C1 witness: the amended rule at a concrete custom one-case suite
whose launch fails. -/
theorem C1_witness :
    (TF.run_with (str "two_sum")
      { name := str "Custom " ++ str "two_sum" ++ str " Tests",
        algorithm_name := str "two_sum",
        test_cases := [TF.c1_case] } TF.SuiteRunOutcome.raised).total_tests = 1 ∧
    (TF.run_with (str "two_sum")
      { name := str "Custom " ++ str "two_sum" ++ str " Tests",
        algorithm_name := str "two_sum",
        test_cases := [TF.c1_case] } TF.SuiteRunOutcome.raised).failed_tests = 1 :=
  have h := C1_total_tests [] (str "two_sum") (some [TF.c1_case]) .raised
    { name := str "Custom " ++ str "two_sum" ++ str " Tests",
      algorithm_name := str "two_sum", test_cases := [TF.c1_case] } rfl
  ⟨(h.2.2 rfl).1, (h.2.2 rfl).2.2⟩
